import Mathlib

/-
Verification of the cart / checkout / payment flow of the
estycommerceclone Django backend (src/estyecomapp).

Shallow embedding conventions:
- Django Decimal money fields are modelled as `Rat` (exact decimal arithmetic).
- Python ints are modelled as `Int` (quantities and stock counters are mutated
  as plain Python ints before being written back, so they can transiently go
  negative even though the columns are PositiveIntegerField).
- The product table is a total function `Nat → Product` (foreign keys always
  resolve, which the FK constraints guarantee for rows referenced by carts).
- Remote HTTP calls and random draws are passed in as explicit streams.
-/

namespace Esty

/-- `Product` row (models.py:246): the fields the cart/checkout flow reads. -/
structure Product where
  id : Nat
  title : String
  price : Rat
  discount_price : Option Rat
  in_stock : Int
  is_available : Bool
deriving Repr, DecidableEq

/-- `Product.final_price` (models.py:383-384):
`self.discount_price if self.discount_price else self.price`.
Python truthiness: `None` and `Decimal(0)` both fall back to `price`. -/
def Product.final_price (p : Product) : Rat :=
  match p.discount_price with
  | none => p.price
  | some d => if d = 0 then p.price else d

/-- `CartProduct` row (models.py:502): a cart line item.  `selected_size`
is modelled by the size code string (distinct sizes have distinct codes);
`none` is the no-size case. -/
structure CartProduct where
  id : Nat
  productId : Nat
  selected_size : Option String
  quantity : Int
  subtotal : Rat
deriving Repr, DecidableEq

/-- `Cart` row (models.py:485) together with its line items
(the `items` reverse relation). -/
structure Cart where
  id : Nat
  total : Rat
  items : List CartProduct
deriving Repr, DecidableEq

/-- `Cart.update_total` (models.py:495-499):
`total = sum(item.subtotal for item in self.items.all()); self.save()`. -/
def Cart.update_total (c : Cart) : Cart :=
  { c with total := (c.items.map (fun it => it.subtotal)).sum }

/-- Fresh primary key for a newly created line item (Django auto pk). -/
def nextItemId (c : Cart) : Nat :=
  (c.items.foldl (fun a it => max a it.id) 0) + 1

/-- Outcome of `AddToCartView.post` (views.py:826-906).
`onlyAvailable a` is the response built from
the message naming `product.in_stock` (views.py:873, 884). -/
inductive AddResult where
  | notFound
  | productOutOfStock
  | onlyAvailable (available : Int)
  | ok (message : String)
deriving Repr, DecidableEq

/-- `AddToCartView.post` (views.py:826-906), acting on one product row and
one cart.  The slug lookup filters `is_available=True` (views.py:828); the
out-of-stock guard is views.py:831; the existing-line-item upsert is
views.py:862-879 (re-validating the new total against `product.in_stock`);
the new-line-item branch is views.py:881-894 with
`subtotal = product.final_price * quantity` recomputed by
`CartProduct.save` (models.py:518-520); `cart.update_total()` runs last
(views.py:897). -/
def addToCart (p : Product) (cart : Cart) (quantity : Int)
    (size : Option String) : AddResult × Cart :=
  if !p.is_available then (.notFound, cart)
  else if p.in_stock ≤ 0 then (.productOutOfStock, cart)
  else
    match cart.items.find? (fun it =>
        it.productId == p.id && it.selected_size == size) with
    | some it =>
      let newQuantity := it.quantity + quantity
      if p.in_stock < newQuantity then (.onlyAvailable p.in_stock, cart)
      else
        let items2 := cart.items.map (fun j =>
          if j.id == it.id then
            { j with quantity := newQuantity
                     subtotal := p.final_price * (newQuantity : Rat) }
          else j)
        (.ok "Item quantity updated in cart",
          Cart.update_total { cart with items := items2 })
    | none =>
      if p.in_stock < quantity then (.onlyAvailable p.in_stock, cart)
      else
        let newItem : CartProduct :=
          { id := nextItemId cart
            productId := p.id
            selected_size := size
            quantity := quantity
            subtotal := p.final_price * (quantity : Rat) }
        (.ok "Item added to cart",
          Cart.update_total { cart with items := cart.items ++ [newItem] })

/-- Outcome of `ManageCartView.post` (views.py:939-987). -/
inductive ManageResult where
  | notFound
  | onlyAvailable (available : Int)
  | ok (message : String)
  | invalidAction
deriving Repr, DecidableEq

/-- `ManageCartView.post` (views.py:939-987): increment, decrement or remove
one line item, each mutation followed by `cart.update_total()`.
Decrementing to zero deletes the item (views.py:962-973); `inc` re-checks
stock (views.py:951); any save recomputes `subtotal` via
`CartProduct.save` (models.py:518-520). -/
def manageCart (products : Nat → Product) (cart : Cart) (itemId : Nat)
    (action : String) : ManageResult × Cart :=
  match cart.items.find? (fun it => it.id == itemId) with
  | none => (.notFound, cart)
  | some it =>
    let p := products it.productId
    if action == "inc" then
      if p.in_stock < it.quantity + 1 then (.onlyAvailable p.in_stock, cart)
      else
        let items2 := cart.items.map (fun j =>
          if j.id == it.id then
            { j with quantity := it.quantity + 1
                     subtotal := p.final_price * ((it.quantity + 1 : Int) : Rat) }
          else j)
        (.ok "Item quantity increased",
          Cart.update_total { cart with items := items2 })
    else if action == "dcr" then
      let q2 := it.quantity - 1
      if q2 = 0 then
        (.ok "Item removed from cart",
          Cart.update_total
            { cart with items := cart.items.filter (fun j => !(j.id == itemId)) })
      else
        let items2 := cart.items.map (fun j =>
          if j.id == it.id then
            { j with quantity := q2, subtotal := p.final_price * (q2 : Rat) }
          else j)
        (.ok "Item quantity decreased",
          Cart.update_total { cart with items := items2 })
    else if action == "rmv" then
      (.ok "Item removed from cart",
        Cart.update_total
          { cart with items := cart.items.filter (fun j => !(j.id == itemId)) })
    else (.invalidAction, cart)

/-- `OrderItem` row (models.py:597-606): a plain-value snapshot of a cart
line item taken at checkout time. -/
structure OrderItemRow where
  productId : Option Nat
  product_name : String
  product_price : Rat
  quantity : Int
  selected_size : Option String
  subtotal : Rat
deriving Repr, DecidableEq

/-- `Order` row (models.py:540-594): the fields the checkout/payment flow
reads and writes, with its `items` reverse relation inlined. -/
structure Order where
  order_number : String
  ref : String
  amount : Rat
  subtotal : Rat
  order_status : String
  payment_method : String
  payment_complete : Bool
  email : String
  items : List OrderItemRow
deriving Repr, DecidableEq

/-- The `OrderItem.objects.create(...)` snapshot taken from the product row
as currently read (views.py:1037-1045): name and price come from the live
product row, quantity and subtotal from the cart line item. -/
def rowOf (products : Nat → Product) (it : CartProduct) : OrderItemRow :=
  { productId := some it.productId
    product_name := (products it.productId).title
    product_price := (products it.productId).final_price
    quantity := it.quantity
    selected_size := it.selected_size
    subtotal := it.subtotal }

/-- Writes `{products pid with in_stock := newStock}` back to the product
table (`product.save()`, views.py:1050). -/
def setStock (products : Nat → Product) (pid : Nat) (newStock : Int) :
    Nat → Product :=
  fun n => if n == pid then { products pid with in_stock := newStock } else products n

/-- The order-item loop inside the atomic block (views.py:1034-1050): for
each cart line item, snapshot an `OrderItem` from the product row as read
at that iteration, then write back
`in_stock := in_stock - cart_item.quantity`.  Each iteration re-reads the
product table, so repeated products in one cart accumulate decrements. -/
def checkoutLoop : List CartProduct → (Nat → Product) →
    List OrderItemRow × (Nat → Product)
  | [], products => ([], products)
  | it :: rest, products =>
    let row := rowOf products it
    let products2 :=
      setStock products it.productId
        ((products it.productId).in_stock - it.quantity)
    let out := checkoutLoop rest products2
    (row :: out.1, out.2)

/-- Total quantity of `pid` purchased across the cart line items. -/
def qtySum (items : List CartProduct) (pid : Nat) : Int :=
  (items.map (fun it => if it.productId == pid then it.quantity else 0)).sum

/-- The state `CheckoutView.post` (views.py:990-1074) reads and writes:
the product table, the session cart together with the session's
`cart_id` binding, and the order table. -/
structure CheckoutState where
  products : Nat → Product
  cart : Cart
  session_cart_id : Option Nat
  orders : List Order

/-- Outcome of `CheckoutView.post` (views.py:990-1074).
`insufficientStock title` is the 400 response built from the message
naming the offending product (views.py:1016); `serverError` is the 500
produced when an exception inside the atomic block aborts and rolls back
the transaction (views.py:1073-1074). -/
inductive CheckoutResult where
  | cartNotFound
  | cartEmpty
  | insufficientStock (title : String)
  | invalidShipping
  | serverError
  | created (order_number : String)
deriving Repr, DecidableEq

/-- The body of the atomic block on the success path (views.py:1023-1053):
create the Order with `order_status = pending` and
`amount = subtotal = cart.total` (views.py:1025-1031), run the order-item
loop, then delete the session's `cart_id` binding (views.py:1053).
`orderNumber` and `refToken` stand for the identifiers `Order.save`
generates (models.py:580-590), modelled separately by `orderSave`. -/
def checkoutCommit (st : CheckoutState) (orderNumber refToken email pm : String) :
    CheckoutResult × CheckoutState :=
  let out := checkoutLoop st.cart.items st.products
  let o : Order :=
    { order_number := orderNumber
      ref := refToken
      amount := st.cart.total
      subtotal := st.cart.total
      order_status := "pending"
      payment_method := pm
      payment_complete := false
      email := email
      items := out.1 }
  (.created orderNumber,
    { st with products := out.2
              orders := st.orders ++ [o]
              session_cart_id := none })

/-- `CheckoutView.post` (views.py:990-1074).  Guards in source order:
missing session `cart_id` (views.py:994-1000), empty cart
(views.py:1006-1010), per-item stock validation returning on the first
line item whose quantity exceeds the current stock (views.py:1013-1018),
shipping serializer validation (views.py:1020-1022, abstracted as the
boolean `shippingValid`).  Then the atomic block runs; `faultAt = some k`
with `k` an index into the cart items injects an exception at iteration
`k` of the order-item loop (for example an integrity error raised by a
save), in which case `transaction.atomic` rolls the database back and
the handler returns a 500 — no order, no order items and no stock write
survive, and the session binding (deleted only after the loop,
views.py:1053) is also still intact. -/
def checkout (st : CheckoutState) (shippingValid : Bool) (faultAt : Option Nat)
    (orderNumber refToken email pm : String) : CheckoutResult × CheckoutState :=
  match st.session_cart_id with
  | none => (.cartNotFound, st)
  | some _ =>
    if st.cart.items.isEmpty then (.cartEmpty, st)
    else
      match st.cart.items.find? (fun it =>
          decide ((st.products it.productId).in_stock < it.quantity)) with
      | some it => (.insufficientStock (st.products it.productId).title, st)
      | none =>
        if !shippingValid then (.invalidShipping, st)
        else
          match faultAt with
          | some k =>
            if k < st.cart.items.length then (.serverError, st)
            else checkoutCommit st orderNumber refToken email pm
          | none => checkoutCommit st orderNumber refToken email pm

/-- Provider response to `GET transaction/verify/(ref)` as read by
`VerifyPaymentView.get` (views.py:1132-1136): the top-level `status`
field, `data.status` and `data.amount` in minor currency units. -/
structure VerifyResponse where
  status : Bool
  data_status : String
  data_amount : Int
deriving Repr, DecidableEq

/-- Outcome of `VerifyPaymentView.get` (views.py:1123-1172). -/
inductive VerifyResult where
  | verified (order_number : String)
  | amountMismatch
  | abandoned
  | failed
deriving Repr, DecidableEq

/-- `VerifyPaymentView.get` (views.py:1123-1172) acting on the order found
by `ref`.  On provider success, `paid_amount = data.amount / 100`
(views.py:1136) is compared for exact equality with `order.amount`
(views.py:1138); on match the order is saved with
`payment_complete = True` and `order_status = processing`
(views.py:1139-1141); on mismatch the order is returned unmutated
(views.py:1147-1151).  An `abandoned` provider status resets
`order_status` to `pending` (views.py:1153-1155); anything else leaves
the order untouched (views.py:1160-1164). -/
def verifyPayment (o : Order) (resp : VerifyResponse) : VerifyResult × Order :=
  if resp.status && resp.data_status == "success" then
    let paid : Rat := (resp.data_amount : Rat) / 100
    if paid = o.amount then
      (.verified o.order_number,
        { o with payment_complete := true, order_status := "processing" })
    else (.amountMismatch, o)
  else if resp.data_status == "abandoned" then
    (.abandoned, { o with order_status := "pending" })
  else (.failed, o)

/-- Provider response to `POST transaction/initialize` as read by
`PaymentPageView.get` (views.py:1099-1103). -/
structure InitResponse where
  status : Bool
  authorization_url : String
deriving Repr, DecidableEq

/-- Outcome of `PaymentPageView.get` (views.py:1077-1120). -/
inductive InitResult where
  | alreadyCompleted
  | ok (authorization_url : String)
  | initFailed
deriving Repr, DecidableEq

/-- `PaymentPageView.get` (views.py:1077-1120).  If
`order.payment_complete` the view returns the `Payment already completed`
400 before the provider call (views.py:1084-1088); otherwise it POSTs to
the initialize endpoint (views.py:1099).  The middle component of the
result records whether that remote call was made.  The order row is never
written by this view. -/
def paymentPage (o : Order) (resp : InitResponse) : InitResult × Bool × Order :=
  if o.payment_complete then (.alreadyCompleted, false, o)
  else if resp.status then (.ok resp.authorization_url, true, o)
  else (.initFailed, true, o)

/-- What one HTTP attempt inside `Paystack._make_request`
(paystack.py:28-89) can observe: a raised timeout, a raised connection
error, or a response with a status code, an optional Retry-After header
and a decoded JSON body (its truthy `status` field and its payload). -/
inductive HttpOutcome where
  | timeout
  | connError
  | httpResponse (code : Int) (retryAfterHeader : Option Int)
      (okStatus : Bool) (body : String)
deriving Repr, DecidableEq

/-- Return value of `Paystack._make_request` (paystack.py:28-89), tagged by
which return statement produced it. -/
inductive ReqResult where
  | success (body : String)
  | apiMessage (message : String)
  | httpError (code : Int)
  | timeoutExhausted
  | connExhausted
  | maxRetriesExceeded
deriving Repr, DecidableEq

/-- `self.retry_delay` (paystack.py:18). -/
def retryDelay : Int := 1

/-- `self.max_retries` (paystack.py:17). -/
def maxRetries : Nat := 3

/-- The body of `for attempt in range(self.max_retries)`
(paystack.py:28-89), recursing on the number of loop iterations left.
`outcomes` is the stream of per-request outcomes, indexed by how many HTTP
requests have been issued so far; the result carries the final request
count and the list of `time.sleep` durations in order.  Branches:
- 429: sleep `Retry-After` (default `retry_delay`) and `continue`
  (paystack.py:47-50) — note the `continue` still consumes a loop
  iteration;
- 200: return success or the API message depending on the body's `status`
  field (paystack.py:52-57);
- other codes: if another iteration remains, sleep
  `retry_delay * (attempt + 1)` and retry, else return the structured
  HTTP error (paystack.py:58-69);
- timeout / connection error: same backoff, else the exhausted error
  (paystack.py:71-85). -/
def makeRequestAux (outcomes : Nat → HttpOutcome) :
    Nat → Nat → List Int → ReqResult × Nat × List Int
  | 0, reqCount, sleeps => (.maxRetriesExceeded, reqCount, sleeps)
  | remaining + 1, reqCount, sleeps =>
    let attempt := maxRetries - (remaining + 1)
    match outcomes reqCount with
    | .httpResponse code retryAfterHeader okStatus body =>
      if code = 429 then
        makeRequestAux outcomes remaining (reqCount + 1)
          (sleeps ++ [retryAfterHeader.getD retryDelay])
      else if code = 200 then
        if okStatus then (.success body, reqCount + 1, sleeps)
        else (.apiMessage body, reqCount + 1, sleeps)
      else
        if remaining = 0 then (.httpError code, reqCount + 1, sleeps)
        else
          makeRequestAux outcomes remaining (reqCount + 1)
            (sleeps ++ [retryDelay * ((attempt : Int) + 1)])
    | .timeout =>
      if remaining = 0 then (.timeoutExhausted, reqCount + 1, sleeps)
      else
        makeRequestAux outcomes remaining (reqCount + 1)
          (sleeps ++ [retryDelay * ((attempt : Int) + 1)])
    | .connError =>
      if remaining = 0 then (.connExhausted, reqCount + 1, sleeps)
      else
        makeRequestAux outcomes remaining (reqCount + 1)
          (sleeps ++ [retryDelay * ((attempt : Int) + 1)])

/-- `Paystack._make_request` (paystack.py:20-89): run the attempt loop from
a fresh state.  Returns (result, number of HTTP requests issued, sleeps). -/
def makeRequest (outcomes : Nat → HttpOutcome) : ReqResult × Nat × List Int :=
  makeRequestAux outcomes maxRetries 0 []

/-- Terminal outcome of one checkout request in the interleaving model:
`insufficientStock` is the validation 400 (views.py:1015-1018),
`serverError` is the 500 the handler returns when the transaction aborts
(views.py:1073-1074), `created` is the committed order. -/
inductive ThreadOutcome where
  | running
  | insufficientStock
  | serverError
  | created
deriving Repr, DecidableEq

/-- One checkout request in the two-checkouts interleaving model, reduced
to its database interactions with the shared product row:
phase 0 = the stock validation read (views.py:1013-1014);
phase 1 = the order-item loop's fresh read of the product row
(views.py:1034, 1047-1048), stored in `observed`;
phase 2 = the UPDATE writing the Python-computed `observed - qty` back
and committing (views.py:1049-1050);
phase 3 = done, with `outcome` recorded. -/
structure CheckoutThread where
  qty : Int
  observed : Int
  phase : Nat
  outcome : ThreadOutcome
deriving Repr, DecidableEq

/-- Shared state for two concurrent `CheckoutView.post` requests against
one product row.  `stock` is the committed `in_stock` value. -/
structure ConcState where
  stock : Int
  t1 : CheckoutThread
  t2 : CheckoutThread
deriving Repr, DecidableEq

/-- One database interaction of one checkout request.  The validation read
(views.py:1014) and the loop's read and write (views.py:1047-1050) are
separate queries with no `select_for_update`, each read seeing the
currently committed stock, so another request's committed decrement can
land between them.  The write stores the Python-computed
`observed - qty` literally; `in_stock` is a `PositiveIntegerField`
(models.py:289) on PostgreSQL (api/settings.py:71-77), whose generated
check constraint `in_stock >= 0` makes an UPDATE to a negative value
raise an integrity error, in which case `transaction.atomic` rolls the
request back (no order persists, committed stock is untouched) and the
handler returns a 500. -/
def threadStep (stock : Int) (t : CheckoutThread) : Int × CheckoutThread :=
  if t.phase = 0 then
    if stock < t.qty then (stock, { t with phase := 3, outcome := .insufficientStock })
    else (stock, { t with phase := 1 })
  else if t.phase = 1 then
    (stock, { t with observed := stock, phase := 2 })
  else if t.phase = 2 then
    if t.observed - t.qty < 0 then (stock, { t with phase := 3, outcome := .serverError })
    else (t.observed - t.qty, { t with phase := 3, outcome := .created })
  else (stock, t)

/-- Run one scheduled step: `false` advances the first request, `true` the
second. -/
def concStep (s : ConcState) (who : Bool) : ConcState :=
  if who then
    let out := threadStep s.stock s.t2
    { s with stock := out.1, t2 := out.2 }
  else
    let out := threadStep s.stock s.t1
    { s with stock := out.1, t1 := out.2 }

/-- Run a whole interleaving schedule. -/
def runSchedule (s : ConcState) : List Bool → ConcState
  | [] => s
  | w :: ws => runSchedule (concStep s w) ws

/-- The identifier pair `Order.save` (models.py:580-590) generates for a
new order: `order_number` and the payment reference `ref`, both columns
declared `unique=True` (models.py:541, 565). -/
structure OrderIds where
  order_number : String
  ref : String
deriving Repr, DecidableEq

/-- The ref collision-retry loop (models.py:584-588): draw
`secrets.token_urlsafe(50)`, re-draw while an order with that ref exists,
keep the first fresh draw.  `draws` is the random token stream and `h`
says some draw is fresh (true with probability 1 for the real RNG);
`Nat.find h` is the first such index, so earlier draws all collide and
are re-drawn, exactly the loop's behaviour. -/
def genRef (existing : List String) (draws : Nat → String)
    (h : ∃ n, draws n ∉ existing) : String :=
  draws (Nat.find h)

/-- `Order.save` for a new order (models.py:580-590) against the order
table restricted to its identifier columns: generate
`order_number = "ORD-" + uuid4().hex[:10].upper()` (one draw, no retry
loop, models.py:581-582), generate `ref` by the collision-retry loop,
then insert; the database enforces the two `unique=True` constraints, an
insert violating one raises an integrity error (`none`). -/
def orderSave (db : List OrderIds) (numDraw : String) (draws : Nat → String)
    (h : ∃ n, draws n ∉ db.map (fun o => o.ref)) : Option (List OrderIds) :=
  let num := "ORD-" ++ numDraw
  let r := genRef (db.map (fun o => o.ref)) draws h
  if db.any (fun o => o.order_number == num) then none
  else if db.any (fun o => o.ref == r) then none
  else some (db ++ [{ order_number := num, ref := r }])


/-- C6: when the provider reports a successful transaction but the paid
amount converted back from minor units differs from the stored order
amount, verification returns the amount-mismatch error and hands back the
order entirely unmutated. -/
theorem C6_verify_amount_mismatch (o : Order) (resp : VerifyResponse)
    (hs : resp.status = true) (hds : resp.data_status = "success")
    (hne : (resp.data_amount : Rat) / 100 ≠ o.amount) :
    verifyPayment o resp = (.amountMismatch, o) := by
  simp [verifyPayment, hs, hds, hne]

/-- C7: verification is idempotent on success — after a matching
successful verification the order has payment_complete true and status
processing, and re-running verification with the same provider response
maps that state to itself. -/
theorem C7_verify_idempotent (o : Order) (resp : VerifyResponse)
    (hs : resp.status = true) (hds : resp.data_status = "success")
    (heq : (resp.data_amount : Rat) / 100 = o.amount) :
    (verifyPayment o resp).2.payment_complete = true ∧
    (verifyPayment o resp).2.order_status = "processing" ∧
    (verifyPayment (verifyPayment o resp).2 resp).2 = (verifyPayment o resp).2 := by
  simp [verifyPayment, hs, hds, heq]

/-- C10: payment initiation on an order already marked payment_complete
returns the already-completed error without contacting the provider
initialize endpoint and without modifying the order; the provider is
contacted whenever payment_complete is false. -/
theorem C10_payment_page (o : Order) (resp : InitResponse) :
    (o.payment_complete = true →
      paymentPage o resp = (.alreadyCompleted, false, o)) ∧
    (o.payment_complete = false → (paymentPage o resp).2.1 = true) := by
  constructor
  · intro h; simp [paymentPage, h]
  · intro h; cases hb : resp.status <;> simp [paymentPage, h, hb]

/-- The write step never commits a negative stock: the check constraint
rejects it and the transaction rolls back instead. -/
theorem threadStep_stock_nonneg (stock : Int) (t : CheckoutThread)
    (h : 0 ≤ stock) : 0 ≤ (threadStep stock t).1 := by
  unfold threadStep
  split_ifs <;> simp <;> omega

/-- One scheduled step keeps the committed stock nonnegative. -/
theorem concStep_stock_nonneg (s : ConcState) (w : Bool)
    (h : 0 ≤ s.stock) : 0 ≤ (concStep s w).stock := by
  cases w <;> simp only [concStep] <;> exact threadStep_stock_nonneg _ _ h

/-- Under every interleaving of the two checkouts, committed stock stays
nonnegative — the schema check, not the application code, enforces the
invariant. -/
theorem runSchedule_stock_nonneg (sched : List Bool) (s : ConcState)
    (hs : 0 ≤ s.stock) : 0 ≤ (runSchedule s sched).stock := by
  induction sched generalizing s with
  | nil => exact hs
  | cons w ws ih => exact ih (concStep s w) (concStep_stock_nonneg s w hs)

/-- C3: counter-evidence for the exactly-one-succeeds scenario.  Product
stock is 1 and two concurrent checkouts each buy one unit.  First
schedule: both loop reads happen before either commit, so both
checkouts commit an order (two units sold from one in stock) and the
committed stock ends at 0.  Second schedule: the second request's loop
read observes the already-committed 0, its UPDATE would write -1, the
check constraint raises and the request rolls back to a generic 500 —
not the claimed InsufficientStock — while stock stays 0 with exactly one
order.  In neither interleaving does stock go negative (the schema check
forbids it), but the claimed exactly-one-succeeds outcome and the
claimed InsufficientStock error for the loser both fail. -/
theorem C3_race :
    ((runSchedule
        { stock := 1
          t1 := { qty := 1, observed := 0, phase := 0, outcome := .running }
          t2 := { qty := 1, observed := 0, phase := 0, outcome := .running } }
        [false, true, false, true, false, true]).stock = 0 ∧
     (runSchedule
        { stock := 1
          t1 := { qty := 1, observed := 0, phase := 0, outcome := .running }
          t2 := { qty := 1, observed := 0, phase := 0, outcome := .running } }
        [false, true, false, true, false, true]).t1.outcome = .created ∧
     (runSchedule
        { stock := 1
          t1 := { qty := 1, observed := 0, phase := 0, outcome := .running }
          t2 := { qty := 1, observed := 0, phase := 0, outcome := .running } }
        [false, true, false, true, false, true]).t2.outcome = .created) ∧
    ((runSchedule
        { stock := 1
          t1 := { qty := 1, observed := 0, phase := 0, outcome := .running }
          t2 := { qty := 1, observed := 0, phase := 0, outcome := .running } }
        [false, true, false, false, true, true]).stock = 0 ∧
     (runSchedule
        { stock := 1
          t1 := { qty := 1, observed := 0, phase := 0, outcome := .running }
          t2 := { qty := 1, observed := 0, phase := 0, outcome := .running } }
        [false, true, false, false, true, true]).t1.outcome = .created ∧
     (runSchedule
        { stock := 1
          t1 := { qty := 1, observed := 0, phase := 0, outcome := .running }
          t2 := { qty := 1, observed := 0, phase := 0, outcome := .running } }
        [false, true, false, false, true, true]).t2.outcome = .serverError) := by
  decide

/-- C9 counterexample: with three rate-limit (429) responses followed by
an available success, the wrapper returns the max-retries-exceeded error
after issuing exactly 3 requests and sleeping the Retry-After duration
each time — the 429 retries consumed the bound, so a rate-limit retry
does count against it, contrary to the claim. -/
theorem C9_counterexample :
    makeRequest (fun n =>
      if n < 3 then HttpOutcome.httpResponse 429 (some 7) true "data"
      else HttpOutcome.httpResponse 200 none true "data")
      = (.maxRetriesExceeded, 3, [7, 7, 7]) := by
  decide


/-- Witness for C6 at provider amount 2000 against order amount 25.00. -/
theorem C6_verify_amount_mismatch_witness :
    ((2000 : Rat) / 100 ≠ (25 : Rat)) ∧
    verifyPayment
      { order_number := "ORD-1", ref := "r1", amount := 25, subtotal := 25
        order_status := "pending", payment_method := "paystack"
        payment_complete := false, email := "a@b.c", items := [] }
      { status := true, data_status := "success", data_amount := 2000 }
      = (.amountMismatch,
          { order_number := "ORD-1", ref := "r1", amount := 25, subtotal := 25
            order_status := "pending", payment_method := "paystack"
            payment_complete := false, email := "a@b.c", items := [] }) := by
  refine ⟨by norm_num, ?_⟩
  exact C6_verify_amount_mismatch _ _ rfl rfl (by norm_num)

/-- Witness for C7 at provider amount 2500 against order amount 25.00. -/
theorem C7_verify_idempotent_witness :
    ((2500 : Rat) / 100 =
      ({ order_number := "ORD-1", ref := "r1", amount := 25, subtotal := 25
         order_status := "pending", payment_method := "paystack"
         payment_complete := false, email := "a@b.c", items := [] } : Order).amount) ∧
    ((verifyPayment
        { order_number := "ORD-1", ref := "r1", amount := 25, subtotal := 25
          order_status := "pending", payment_method := "paystack"
          payment_complete := false, email := "a@b.c", items := [] }
        { status := true, data_status := "success", data_amount := 2500 }).2.payment_complete = true ∧
     (verifyPayment
        { order_number := "ORD-1", ref := "r1", amount := 25, subtotal := 25
          order_status := "pending", payment_method := "paystack"
          payment_complete := false, email := "a@b.c", items := [] }
        { status := true, data_status := "success", data_amount := 2500 }).2.order_status = "processing" ∧
     (verifyPayment
        (verifyPayment
          { order_number := "ORD-1", ref := "r1", amount := 25, subtotal := 25
            order_status := "pending", payment_method := "paystack"
            payment_complete := false, email := "a@b.c", items := [] }
          { status := true, data_status := "success", data_amount := 2500 }).2
        { status := true, data_status := "success", data_amount := 2500 }).2 =
      (verifyPayment
        { order_number := "ORD-1", ref := "r1", amount := 25, subtotal := 25
          order_status := "pending", payment_method := "paystack"
          payment_complete := false, email := "a@b.c", items := [] }
        { status := true, data_status := "success", data_amount := 2500 }).2) := by
  refine ⟨by norm_num, ?_⟩
  exact C7_verify_idempotent _ _ rfl rfl (by norm_num)

/-- Witness for C10 on a completed and an uncompleted order. -/
theorem C10_payment_page_witness :
    (paymentPage
      { order_number := "ORD-1", ref := "r1", amount := 25, subtotal := 25
        order_status := "processing", payment_method := "paystack"
        payment_complete := true, email := "a@b.c", items := [] }
      { status := true, authorization_url := "u" }
      = (.alreadyCompleted, false,
          { order_number := "ORD-1", ref := "r1", amount := 25, subtotal := 25
            order_status := "processing", payment_method := "paystack"
            payment_complete := true, email := "a@b.c", items := [] })) ∧
    ((paymentPage
      { order_number := "ORD-2", ref := "r2", amount := 25, subtotal := 25
        order_status := "pending", payment_method := "paystack"
        payment_complete := false, email := "a@b.c", items := [] }
      { status := true, authorization_url := "u" }).2.1 = true) := by
  exact ⟨(C10_payment_page _ _).1 rfl, (C10_payment_page _ _).2 rfl⟩


/-- C9 (amended): on timeout or connection error the wrapper retries up
to 3 attempts with linearly increasing backoff (sleeps of 1 then 2
seconds); on any other non-success status code it retries to the same
bound then surfaces the structured HTTP error; on a rate-limit (429)
response it sleeps the provider Retry-After duration and retries, with
that retry counting against the 3-attempt bound (three rate-limit
responses exhaust the loop); a retry after a 429 can still succeed. -/
theorem C9_retry_policy (outcomes : Nat → HttpOutcome) :
    ((∀ n, n < 3 → outcomes n = .timeout) →
      makeRequest outcomes = (.timeoutExhausted, 3, [1, 2])) ∧
    ((∀ n, n < 3 → outcomes n = .connError) →
      makeRequest outcomes = (.connExhausted, 3, [1, 2])) ∧
    (∀ code rah okS b, code ≠ 429 → code ≠ 200 →
      (∀ n, n < 3 → outcomes n = .httpResponse code rah okS b) →
      makeRequest outcomes = (.httpError code, 3, [1, 2])) ∧
    (∀ ra okS b, (∀ n, n < 3 → outcomes n = .httpResponse 429 (some ra) okS b) →
      makeRequest outcomes = (.maxRetriesExceeded, 3, [ra, ra, ra])) ∧
    (∀ ra okS b body, outcomes 0 = .httpResponse 429 (some ra) okS b →
      outcomes 1 = .httpResponse 200 none true body →
      makeRequest outcomes = (.success body, 2, [ra])) := by
  refine ⟨?_, ?_, ?_, ?_, ?_⟩
  · intro h
    have h0 := h 0 (by norm_num)
    have h1 := h 1 (by norm_num)
    have h2 := h 2 (by norm_num)
    simp [makeRequest, makeRequestAux, h0, h1, h2, retryDelay, maxRetries]
  · intro h
    have h0 := h 0 (by norm_num)
    have h1 := h 1 (by norm_num)
    have h2 := h 2 (by norm_num)
    simp [makeRequest, makeRequestAux, h0, h1, h2, retryDelay, maxRetries]
  · intro code rah okS b hc429 hc200 h
    have h0 := h 0 (by norm_num)
    have h1 := h 1 (by norm_num)
    have h2 := h 2 (by norm_num)
    simp [makeRequest, makeRequestAux, h0, h1, h2, hc429, hc200, retryDelay, maxRetries]
  · intro ra okS b h
    have h0 := h 0 (by norm_num)
    have h1 := h 1 (by norm_num)
    have h2 := h 2 (by norm_num)
    simp [makeRequest, makeRequestAux, h0, h1, h2, retryDelay, maxRetries]
  · intro ra okS b body h0 h1
    simp [makeRequest, makeRequestAux, h0, h1, retryDelay, maxRetries]

/-- Witness for C9 on concrete outcome streams for each policy branch. -/
theorem C9_retry_policy_witness :
    makeRequest (fun _ => HttpOutcome.timeout) = (.timeoutExhausted, 3, [1, 2]) ∧
    makeRequest (fun _ => HttpOutcome.connError) = (.connExhausted, 3, [1, 2]) ∧
    makeRequest (fun _ => HttpOutcome.httpResponse 500 none true "err")
      = (.httpError 500, 3, [1, 2]) ∧
    makeRequest (fun _ => HttpOutcome.httpResponse 429 (some 5) true "wait")
      = (.maxRetriesExceeded, 3, [5, 5, 5]) ∧
    makeRequest (fun n =>
        if n = 0 then HttpOutcome.httpResponse 429 (some 5) true "wait"
        else HttpOutcome.httpResponse 200 none true "okdata")
      = (.success "okdata", 2, [5]) := by
  refine ⟨?_, ?_, ?_, ?_, ?_⟩
  · exact (C9_retry_policy _).1 (fun n _ => rfl)
  · exact (C9_retry_policy _).2.1 (fun n _ => rfl)
  · exact (C9_retry_policy _).2.2.1 500 none true "err" (by norm_num) (by norm_num) (fun n _ => rfl)
  · exact (C9_retry_policy _).2.2.2.1 5 true "wait" (fun n _ => rfl)
  · exact (C9_retry_policy _).2.2.2.2 5 true "wait" "okdata" rfl rfl


/-- update_total always re-establishes the total-equals-sum equation. -/
theorem update_total_spec (c : Cart) :
    (Cart.update_total c).total = ((Cart.update_total c).items.map (fun it => it.subtotal)).sum := rfl

/-- C4: after every successful cart-mutating operation (add to cart,
increment, decrement, remove) the stored cart total equals the sum of the
remaining line items' subtotals, because each mutation ends in
Cart.update_total. -/
theorem C4_cart_total_invariant (products : Nat → Product) (p : Product)
    (cart : Cart) (q : Int) (size : Option String) (itemId : Nat) (action : String) :
    (∀ m c2, addToCart p cart q size = (.ok m, c2) →
       c2.total = (c2.items.map (fun it => it.subtotal)).sum) ∧
    (∀ m c2, manageCart products cart itemId action = (.ok m, c2) →
       c2.total = (c2.items.map (fun it => it.subtotal)).sum) := by
  constructor
  · intro m c2 h
    simp only [addToCart] at h
    repeat' split at h
    all_goals
      first
      | exact (AddResult.noConfusion (congrArg Prod.fst h))
      | (rw [Prod.mk.injEq] at h; exact h.2 ▸ update_total_spec _)
  · intro m c2 h
    simp only [manageCart] at h
    repeat' split at h
    all_goals
      first
      | exact (ManageResult.noConfusion (congrArg Prod.fst h))
      | (rw [Prod.mk.injEq] at h; exact h.2 ▸ update_total_spec _)

/-- Witness for C4: an add followed by an increment on a concrete cart. -/
theorem C4_cart_total_invariant_witness :
    (addToCart
        { id := 1, title := "P", price := 10, discount_price := none
          in_stock := 5, is_available := true }
        { id := 1, total := 0, items := [] } 2 none
      = (.ok "Item added to cart",
          { id := 1, total := 20
            items := [{ id := 1, productId := 1, selected_size := none
                        quantity := 2, subtotal := 20 }] })) ∧
    ({ id := 1, total := 20
       items := [{ id := 1, productId := 1, selected_size := none
                   quantity := 2, subtotal := 20 }] } : Cart).total
      = (({ id := 1, total := 20
            items := [{ id := 1, productId := 1, selected_size := none
                        quantity := 2, subtotal := 20 }] } : Cart).items.map
          (fun it => it.subtotal)).sum ∧
    (manageCart
        (fun _ => { id := 1, title := "P", price := 10, discount_price := none
                    in_stock := 5, is_available := true })
        { id := 1, total := 20
          items := [{ id := 1, productId := 1, selected_size := none
                      quantity := 2, subtotal := 20 }] } 1 "inc"
      = (.ok "Item quantity increased",
          { id := 1, total := 30
            items := [{ id := 1, productId := 1, selected_size := none
                        quantity := 3, subtotal := 30 }] })) ∧
    ({ id := 1, total := 30
       items := [{ id := 1, productId := 1, selected_size := none
                   quantity := 3, subtotal := 30 }] } : Cart).total
      = (({ id := 1, total := 30
            items := [{ id := 1, productId := 1, selected_size := none
                        quantity := 3, subtotal := 30 }] } : Cart).items.map
          (fun it => it.subtotal)).sum := by
  have h1 : addToCart
      { id := 1, title := "P", price := 10, discount_price := none
        in_stock := 5, is_available := true }
      { id := 1, total := 0, items := [] } 2 none
    = (.ok "Item added to cart",
        { id := 1, total := 20
          items := [{ id := 1, productId := 1, selected_size := none
                      quantity := 2, subtotal := 20 }] }) := by
    simp [addToCart, nextItemId, Cart.update_total, Product.final_price]
    norm_num
  have h2 : manageCart
      (fun _ => { id := 1, title := "P", price := 10, discount_price := none
                  in_stock := 5, is_available := true })
      { id := 1, total := 20
        items := [{ id := 1, productId := 1, selected_size := none
                    quantity := 2, subtotal := 20 }] } 1 "inc"
    = (.ok "Item quantity increased",
        { id := 1, total := 30
          items := [{ id := 1, productId := 1, selected_size := none
                      quantity := 3, subtotal := 30 }] }) := by
    simp [manageCart, Cart.update_total, Product.final_price]
    norm_num
  refine ⟨h1, ?_, h2, ?_⟩
  · exact (C4_cart_total_invariant
      (fun _ => { id := 1, title := "P", price := 10, discount_price := none
                  in_stock := 5, is_available := true })
      { id := 1, title := "P", price := 10, discount_price := none
        in_stock := 5, is_available := true }
      { id := 1, total := 0, items := [] } 2 none 1 "inc").1 _ _ h1
  · exact (C4_cart_total_invariant
      (fun _ => { id := 1, title := "P", price := 10, discount_price := none
                  in_stock := 5, is_available := true })
      { id := 1, title := "P", price := 10, discount_price := none
        in_stock := 5, is_available := true }
      { id := 1, total := 20
        items := [{ id := 1, productId := 1, selected_size := none
                    quantity := 2, subtotal := 20 }] } 2 none 1 "inc").2 _ _ h2


/-- Mapping an id-keyed update over a list with duplicate-free ids moves
find? from the matched element to its updated image. -/
theorem find?_update_of_nodup (items : List CartProduct) (pred : CartProduct → Bool)
    (it : CartProduct) (f : CartProduct → CartProduct)
    (hfind : items.find? pred = some it)
    (hnodup : (items.map (fun j => j.id)).Nodup)
    (hpred : pred (f it) = true) :
    (items.map (fun j => if j.id == it.id then f j else j)).find? pred = some (f it) := by
  induction items with
  | nil => simp at hfind
  | cons a l ih =>
    rw [List.map_cons, List.nodup_cons] at hnodup
    by_cases hpa : pred a = true
    · rw [List.find?_cons_of_pos _ hpa] at hfind
      injection hfind with ha
      subst ha
      rw [List.map_cons]
      simp only [beq_self_eq_true, if_true]
      exact List.find?_cons_of_pos _ hpred
    · rw [List.find?_cons_of_neg _ (by simpa using hpa)] at hfind
      have hmem : it ∈ l := List.mem_of_find?_eq_some hfind
      have hne : (a.id == it.id) = false := by
        simp only [beq_eq_false_iff_ne, ne_eq]
        intro he
        exact hnodup.1 (he ▸ List.mem_map_of_mem (fun j => j.id) hmem)
      rw [List.map_cons, hne]
      simp only [Bool.false_eq_true, if_false]
      rw [List.find?_cons_of_neg _ (by simpa using hpa)]
      exact ih hfind hnodup.2


/-- C5: adding a product that already has a line item for the same
(cart, product, size) re-validates the new total quantity against current
stock; if it exceeds stock the call fails reporting product.in_stock as
the quantity still available and leaves the cart unchanged, otherwise it
updates that line item in place (same number of items, no duplicate) to
the summed quantity and recomputed subtotal. -/
theorem C5_add_existing_item (p : Product) (cart : Cart) (q : Int)
    (size : Option String) (it : CartProduct)
    (hav : p.is_available = true) (hpos : 0 < p.in_stock)
    (hnodup : (cart.items.map (fun j => j.id)).Nodup)
    (hfind : cart.items.find? (fun j =>
        j.productId == p.id && j.selected_size == size) = some it) :
    (p.in_stock < it.quantity + q →
      addToCart p cart q size = (.onlyAvailable p.in_stock, cart)) ∧
    (it.quantity + q ≤ p.in_stock →
      (addToCart p cart q size).1 = .ok "Item quantity updated in cart" ∧
      (addToCart p cart q size).2.items.length = cart.items.length ∧
      (addToCart p cart q size).2.items.find? (fun j =>
          j.productId == p.id && j.selected_size == size) =
        some { it with quantity := it.quantity + q
                       subtotal := p.final_price * ((it.quantity + q : Int) : Rat) }) := by
  have hnle : ¬ p.in_stock ≤ 0 := not_le.mpr hpos
  have key : addToCart p cart q size =
      (if p.in_stock < it.quantity + q then
        ((.onlyAvailable p.in_stock : AddResult), cart)
       else (.ok "Item quantity updated in cart",
         Cart.update_total { cart with items := cart.items.map (fun j =>
           if j.id == it.id then
             { j with quantity := it.quantity + q
                      subtotal := p.final_price * ((it.quantity + q : Int) : Rat) }
           else j) })) := by
    simp [addToCart, hav, hnle, hfind]
  constructor
  · intro hlt
    rw [key, if_pos hlt]
  · intro hle
    rw [key, if_neg (not_lt.mpr hle)]
    refine ⟨rfl, ?_, ?_⟩
    · simp [Cart.update_total]
    · have hpred : (fun j => j.productId == p.id && j.selected_size == size)
          ({ it with quantity := it.quantity + q
                     subtotal := p.final_price * ((it.quantity + q : Int) : Rat) }) = true := by
        simpa using List.find?_some hfind
      exact find?_update_of_nodup cart.items _ it _ hfind hnodup hpred


/-- Witness for C5, scenario E: stock 3, existing quantity 2, adding 2
fails reporting 3 available and the line item stays at quantity 2. -/
theorem C5_add_existing_item_witness :
    (({ id := 7, title := "P", price := 10, discount_price := none
        in_stock := 3, is_available := true } : Product).is_available = true) ∧
    ((0 : Int) < 3) ∧
    (([{ id := 1, productId := 7, selected_size := none
         quantity := 2, subtotal := 20 }] : List CartProduct).map (fun j => j.id)).Nodup ∧
    (([{ id := 1, productId := 7, selected_size := none
         quantity := 2, subtotal := 20 }] : List CartProduct).find? (fun j =>
        j.productId == 7 && j.selected_size == none)
      = some { id := 1, productId := 7, selected_size := none
               quantity := 2, subtotal := 20 }) ∧
    ((3 : Int) < 2 + 2) ∧
    addToCart
      { id := 7, title := "P", price := 10, discount_price := none
        in_stock := 3, is_available := true }
      { id := 4, total := 20
        items := [{ id := 1, productId := 7, selected_size := none
                    quantity := 2, subtotal := 20 }] } 2 none
      = (.onlyAvailable 3,
          { id := 4, total := 20
            items := [{ id := 1, productId := 7, selected_size := none
                        quantity := 2, subtotal := 20 }] }) := by
  refine ⟨rfl, by norm_num, by simp, ?_, by norm_num, ?_⟩
  · rfl
  · exact (C5_add_existing_item
      { id := 7, title := "P", price := 10, discount_price := none
        in_stock := 3, is_available := true }
      { id := 4, total := 20
        items := [{ id := 1, productId := 7, selected_size := none
                    quantity := 2, subtotal := 20 }] } 2 none
      { id := 1, productId := 7, selected_size := none
        quantity := 2, subtotal := 20 }
      rfl (by norm_num) (by simp) rfl).1 (by norm_num)


/-- C2: checkout error handling is all-or-nothing.  If some line item
exceeds its product's current stock at checkout time, the caller receives
the structured insufficient-stock error naming the first offending
product and the state is returned untouched; and if a fault strikes any
iteration of the order-item loop inside the atomic block, the transaction
rolls back to exactly the initial state — no order, no order item and no
stock decrement is persisted. -/
theorem C2_checkout_atomicity (st : CheckoutState) (sv : Bool) (k : Nat)
    (onum rtok em pm : String)
    (hsess : st.session_cart_id.isSome = true) :
    (∀ it0, st.cart.items.find? (fun it =>
        decide ((st.products it.productId).in_stock < it.quantity)) = some it0 →
      ∀ fa, checkout st sv fa onum rtok em pm =
        (.insufficientStock ((st.products it0.productId).title), st)) ∧
    ((∀ it ∈ st.cart.items, it.quantity ≤ (st.products it.productId).in_stock) →
      sv = true → k < st.cart.items.length →
      checkout st sv (some k) onum rtok em pm = (.serverError, st)) := by
  obtain ⟨cid, hcid⟩ := Option.isSome_iff_exists.mp hsess
  constructor
  · intro it0 hfind fa
    have hne : st.cart.items.isEmpty = false := by
      cases hI : st.cart.items with
      | nil => rw [hI] at hfind; simp at hfind
      | cons a l => simp [hI]
    simp [checkout, hcid, hne, hfind]
  · intro hstock hsv hk
    have hfind : st.cart.items.find? (fun it =>
        decide ((st.products it.productId).in_stock < it.quantity)) = none := by
      rw [List.find?_eq_none]
      intro x hx
      simpa using not_lt.mpr (hstock x hx)
    have hne : st.cart.items.isEmpty = false := by
      cases hI : st.cart.items with
      | nil => rw [hI] at hk; simp at hk
      | cons a l => simp [hI]
    simp [checkout, hcid, hne, hfind, hsv, hk]


/-- Witness for C2: an over-quantity cart and a fault at loop index 0. -/
theorem C2_checkout_atomicity_witness :
    (checkout
      { products := fun _ => { id := 1, title := "P", price := 10, discount_price := none
                               in_stock := 1, is_available := true }
        cart := { id := 4, total := 50
                  items := [{ id := 1, productId := 1, selected_size := none
                              quantity := 5, subtotal := 50 }] }
        session_cart_id := some 4
        orders := [] } true none "ORD-A" "r" "e" "paystack"
      = (.insufficientStock "P",
          { products := fun _ => { id := 1, title := "P", price := 10, discount_price := none
                                   in_stock := 1, is_available := true }
            cart := { id := 4, total := 50
                      items := [{ id := 1, productId := 1, selected_size := none
                                  quantity := 5, subtotal := 50 }] }
            session_cart_id := some 4
            orders := [] })) ∧
    (checkout
      { products := fun _ => { id := 1, title := "P", price := 10, discount_price := none
                               in_stock := 9, is_available := true }
        cart := { id := 4, total := 50
                  items := [{ id := 1, productId := 1, selected_size := none
                              quantity := 5, subtotal := 50 }] }
        session_cart_id := some 4
        orders := [] } true (some 0) "ORD-A" "r" "e" "paystack"
      = (.serverError,
          { products := fun _ => { id := 1, title := "P", price := 10, discount_price := none
                                   in_stock := 9, is_available := true }
            cart := { id := 4, total := 50
                      items := [{ id := 1, productId := 1, selected_size := none
                                  quantity := 5, subtotal := 50 }] }
            session_cart_id := some 4
            orders := [] })) := by
  constructor
  · exact (C2_checkout_atomicity
      { products := fun _ => { id := 1, title := "P", price := 10, discount_price := none
                               in_stock := 1, is_available := true }
        cart := { id := 4, total := 50
                  items := [{ id := 1, productId := 1, selected_size := none
                              quantity := 5, subtotal := 50 }] }
        session_cart_id := some 4
        orders := [] } true 0 "ORD-A" "r" "e" "paystack" rfl).1
      { id := 1, productId := 1, selected_size := none
        quantity := 5, subtotal := 50 } rfl none
  · exact (C2_checkout_atomicity
      { products := fun _ => { id := 1, title := "P", price := 10, discount_price := none
                               in_stock := 9, is_available := true }
        cart := { id := 4, total := 50
                  items := [{ id := 1, productId := 1, selected_size := none
                              quantity := 5, subtotal := 50 }] }
        session_cart_id := some 4
        orders := [] } true 0 "ORD-A" "r" "e" "paystack" rfl).2
      (by decide) rfl (by decide)


/-- A stock write changes no field a snapshot reads, so snapshots taken
after it agree with snapshots taken before it. -/
theorem rowOf_setStock (db : Nat → Product) (pid : Nat) (s : Int) (j : CartProduct) :
    rowOf (setStock db pid s) j = rowOf db j := by
  unfold rowOf setStock
  by_cases h : j.productId = pid
  · subst h
    simp [Product.final_price]
  · simp [h]

/-- The order-item loop emits exactly one snapshot per cart line item,
with name and price as of the pre-checkout product table. -/
theorem checkoutLoop_rows (items : List CartProduct) (db : Nat → Product) :
    (checkoutLoop items db).1 = items.map (rowOf db) := by
  induction items generalizing db with
  | nil => rfl
  | cons a l ih =>
    simp only [checkoutLoop, List.map_cons]
    congr 1
    rw [ih]
    exact List.map_congr_left (fun j _ => rowOf_setStock db a.productId _ j)

/-- The order-item loop decrements every product's stock by the total
quantity of that product across the cart. -/
theorem checkoutLoop_stock (items : List CartProduct) (db : Nat → Product) (pid : Nat) :
    ((checkoutLoop items db).2 pid).in_stock = (db pid).in_stock - qtySum items pid := by
  induction items generalizing db with
  | nil => simp [checkoutLoop, qtySum]
  | cons a l ih =>
    simp only [checkoutLoop]
    rw [ih]
    have hq : qtySum (a :: l) pid =
        (if (a.productId == pid) = true then a.quantity else 0) + qtySum l pid := by
      simp [qtySum]
    rw [hq]
    unfold setStock
    by_cases h : pid = a.productId
    · subst h
      simp only [beq_self_eq_true, if_true]
      omega
    · have h1 : (pid == a.productId) = false := by simp [h]
      have h2 : (a.productId == pid) = false := by simp [Ne.symm h]
      rw [h1, h2]
      simp only [Bool.false_eq_true, if_false]
      omega


/-- C1: for every non-empty cart in which each line item's quantity is at
most its product's current stock, checkout with valid shipping details
succeeds and, within the atomic unit of work, appends exactly one Order
with status pending and amount equal to the cart's stored total, creates
one OrderItem per cart line item carrying the product's title and final
price and the line item's quantity and subtotal at that moment,
decrements each referenced product's stock by the purchased quantity, and
clears the session's cart binding. -/
theorem C1_checkout_success (st : CheckoutState) (onum rtok em pm : String)
    (hsess : st.session_cart_id.isSome = true)
    (hne : st.cart.items ≠ [])
    (hstock : ∀ it ∈ st.cart.items, it.quantity ≤ (st.products it.productId).in_stock) :
    (checkout st true none onum rtok em pm).1 = .created onum ∧
    (∃ o : Order,
      (checkout st true none onum rtok em pm).2.orders = st.orders ++ [o] ∧
      o.order_status = "pending" ∧
      o.amount = st.cart.total ∧
      o.items = st.cart.items.map (rowOf st.products)) ∧
    (∀ pid, ((checkout st true none onum rtok em pm).2.products pid).in_stock =
      (st.products pid).in_stock - qtySum st.cart.items pid) ∧
    (checkout st true none onum rtok em pm).2.session_cart_id = none := by
  obtain ⟨cid, hcid⟩ := Option.isSome_iff_exists.mp hsess
  have hfind : st.cart.items.find? (fun it =>
      decide ((st.products it.productId).in_stock < it.quantity)) = none := by
    rw [List.find?_eq_none]
    intro x hx
    simpa using not_lt.mpr (hstock x hx)
  have hemp : st.cart.items.isEmpty = false := by
    cases hI : st.cart.items with
    | nil => exact absurd hI hne
    | cons a l => simp [hI]
  have key : checkout st true none onum rtok em pm =
      checkoutCommit st onum rtok em pm := by
    simp [checkout, hcid, hemp, hfind]
  rw [key]
  refine ⟨rfl, ⟨_, rfl, rfl, rfl, ?_⟩, ?_, rfl⟩
  · exact checkoutLoop_rows st.cart.items st.products
  · intro pid
    exact checkoutLoop_stock st.cart.items st.products pid


/-- Witness for C1, scenario B: line items of quantity 2 at price 10.00
and quantity 1 at price 5.00 give an order of amount 25.00 with snapshot
subtotals 20.00 and 5.00, and stocks drop from 5 and 4 to 3 and 3. -/
theorem C1_checkout_success_witness :
    (∀ it ∈ ([{ id := 1, productId := 1, selected_size := none, quantity := 2, subtotal := 20 },
              { id := 2, productId := 2, selected_size := none, quantity := 1, subtotal := 5 }] : List CartProduct),
      it.quantity ≤ ((fun n => if n = 1 then ({ id := 1, title := "P", price := 10, discount_price := none, in_stock := 5, is_available := true } : Product)
                     else { id := 2, title := "Q", price := 5, discount_price := none, in_stock := 4, is_available := true }) it.productId).in_stock) ∧
    (checkout
      { products := fun n => if n = 1 then { id := 1, title := "P", price := 10, discount_price := none, in_stock := 5, is_available := true }
                    else { id := 2, title := "Q", price := 5, discount_price := none, in_stock := 4, is_available := true }
        cart := { id := 4, total := 25
                  items := [{ id := 1, productId := 1, selected_size := none, quantity := 2, subtotal := 20 },
                            { id := 2, productId := 2, selected_size := none, quantity := 1, subtotal := 5 }] }
        session_cart_id := some 4
        orders := [] } true none "ORD-B" "rB" "e" "paystack").1 = .created "ORD-B" ∧
    (∃ o : Order,
      (checkout
        { products := fun n => if n = 1 then { id := 1, title := "P", price := 10, discount_price := none, in_stock := 5, is_available := true }
                      else { id := 2, title := "Q", price := 5, discount_price := none, in_stock := 4, is_available := true }
          cart := { id := 4, total := 25
                    items := [{ id := 1, productId := 1, selected_size := none, quantity := 2, subtotal := 20 },
                              { id := 2, productId := 2, selected_size := none, quantity := 1, subtotal := 5 }] }
          session_cart_id := some 4
          orders := [] } true none "ORD-B" "rB" "e" "paystack").2.orders = [o] ∧
      o.order_status = "pending" ∧ o.amount = 25 ∧
      o.items.map (fun r => r.subtotal) = [20, 5] ∧ o.items.length = 2) ∧
    (((checkout
        { products := fun n => if n = 1 then { id := 1, title := "P", price := 10, discount_price := none, in_stock := 5, is_available := true }
                      else { id := 2, title := "Q", price := 5, discount_price := none, in_stock := 4, is_available := true }
          cart := { id := 4, total := 25
                    items := [{ id := 1, productId := 1, selected_size := none, quantity := 2, subtotal := 20 },
                              { id := 2, productId := 2, selected_size := none, quantity := 1, subtotal := 5 }] }
          session_cart_id := some 4
          orders := [] } true none "ORD-B" "rB" "e" "paystack").2.products 1).in_stock = 3 ∧
     ((checkout
        { products := fun n => if n = 1 then { id := 1, title := "P", price := 10, discount_price := none, in_stock := 5, is_available := true }
                      else { id := 2, title := "Q", price := 5, discount_price := none, in_stock := 4, is_available := true }
          cart := { id := 4, total := 25
                    items := [{ id := 1, productId := 1, selected_size := none, quantity := 2, subtotal := 20 },
                              { id := 2, productId := 2, selected_size := none, quantity := 1, subtotal := 5 }] }
          session_cart_id := some 4
          orders := [] } true none "ORD-B" "rB" "e" "paystack").2.products 2).in_stock = 3) ∧
    (checkout
      { products := fun n => if n = 1 then { id := 1, title := "P", price := 10, discount_price := none, in_stock := 5, is_available := true }
                    else { id := 2, title := "Q", price := 5, discount_price := none, in_stock := 4, is_available := true }
        cart := { id := 4, total := 25
                  items := [{ id := 1, productId := 1, selected_size := none, quantity := 2, subtotal := 20 },
                            { id := 2, productId := 2, selected_size := none, quantity := 1, subtotal := 5 }] }
        session_cart_id := some 4
        orders := [] } true none "ORD-B" "rB" "e" "paystack").2.session_cart_id = none := by
  have hstock : ∀ it ∈ ([{ id := 1, productId := 1, selected_size := none, quantity := 2, subtotal := 20 },
              { id := 2, productId := 2, selected_size := none, quantity := 1, subtotal := 5 }] : List CartProduct),
      it.quantity ≤ ((fun n => if n = 1 then ({ id := 1, title := "P", price := 10, discount_price := none, in_stock := 5, is_available := true } : Product)
                     else { id := 2, title := "Q", price := 5, discount_price := none, in_stock := 4, is_available := true }) it.productId).in_stock := by
    decide
  obtain ⟨h1, ⟨o, ho, hs, ha, hi⟩, hst, hcl⟩ := C1_checkout_success
    { products := fun n => if n = 1 then { id := 1, title := "P", price := 10, discount_price := none, in_stock := 5, is_available := true }
                  else { id := 2, title := "Q", price := 5, discount_price := none, in_stock := 4, is_available := true }
      cart := { id := 4, total := 25
                items := [{ id := 1, productId := 1, selected_size := none, quantity := 2, subtotal := 20 },
                          { id := 2, productId := 2, selected_size := none, quantity := 1, subtotal := 5 }] }
      session_cart_id := some 4
      orders := [] } "ORD-B" "rB" "e" "paystack" rfl (by simp) hstock
  refine ⟨hstock, h1, ⟨o, ho, hs, ha, ?_, ?_⟩, ⟨?_, ?_⟩, hcl⟩
  · rw [hi]; rfl
  · rw [hi]; rfl
  · rw [hst 1]; decide
  · rw [hst 2]; decide


/-- Appending an element not already present keeps a list
duplicate-free. -/
theorem nodup_append_single (l : List String) (a : String)
    (hl : l.Nodup) (ha : a ∉ l) : (l ++ [a]).Nodup := by
  rw [List.nodup_append]
  exact ⟨hl, List.nodup_singleton a, by
    intro x hx hxa
    rw [List.mem_singleton] at hxa
    exact ha (hxa ▸ hx)⟩

/-- C8: the payment-reference retry loop never returns a ref equal to an
existing order's ref, and every successful save extends the order table
while keeping both the order_number and the ref column duplicate-free
(the database unique constraints reject any colliding insert instead of
persisting it). -/
theorem C8_unique_identifiers (db : List OrderIds) (numDraw : String)
    (draws : Nat → String)
    (h : ∃ n, draws n ∉ db.map (fun o => o.ref))
    (hnn : (db.map (fun o => o.order_number)).Nodup)
    (hnr : (db.map (fun o => o.ref)).Nodup) :
    genRef (db.map (fun o => o.ref)) draws h ∉ db.map (fun o => o.ref) ∧
    ∀ db2, orderSave db numDraw draws h = some db2 →
      (db2.map (fun o => o.order_number)).Nodup ∧
      (db2.map (fun o => o.ref)).Nodup := by
  have hfresh : genRef (db.map (fun o => o.ref)) draws h ∉ db.map (fun o => o.ref) :=
    Nat.find_spec h
  refine ⟨hfresh, ?_⟩
  intro db2 hsave
  simp only [orderSave] at hsave
  by_cases hA : db.any (fun o => o.order_number == ("ORD-" ++ numDraw)) = true
  · rw [if_pos hA] at hsave
    exact absurd hsave (by simp)
  · rw [if_neg hA] at hsave
    by_cases hB : db.any (fun o =>
        o.ref == genRef (db.map (fun o => o.ref)) draws h) = true
    · rw [if_pos hB] at hsave
      exact absurd hsave (by simp)
    · rw [if_neg hB] at hsave
      injection hsave with hdb2
      subst hdb2
      have hnum : ("ORD-" ++ numDraw) ∉ db.map (fun o => o.order_number) := by
        intro hmem
        obtain ⟨o, hol, hoe⟩ := List.mem_map.mp hmem
        exact hA (List.any_eq_true.mpr ⟨o, hol, by simp [hoe]⟩)
      constructor
      · rw [List.map_append]
        exact nodup_append_single _ _ hnn hnum
      · rw [List.map_append]
        exact nodup_append_single _ _ hnr hfresh

/-- Witness for C8: a save into an empty order table. -/
theorem C8_unique_identifiers_witness :
    (orderSave ([] : List OrderIds) "ABC123" (fun _ => "tokA")
        ⟨0, List.not_mem_nil "tokA"⟩
      = some [{ order_number := "ORD-ABC123", ref := "tokA" }]) ∧
    (([{ order_number := "ORD-ABC123", ref := "tokA" }] : List OrderIds).map
        (fun o => o.order_number)).Nodup ∧
    (([{ order_number := "ORD-ABC123", ref := "tokA" }] : List OrderIds).map
        (fun o => o.ref)).Nodup := by
  have hW : ∃ n, (fun _ : Nat => "tokA") n ∉ ([] : List OrderIds).map (fun o => o.ref) :=
    ⟨0, List.not_mem_nil "tokA"⟩
  have hfind : Nat.find hW = 0 := (Nat.find_eq_zero hW).mpr (List.not_mem_nil "tokA")
  have hsave : orderSave ([] : List OrderIds) "ABC123" (fun _ => "tokA") hW
      = some [{ order_number := "ORD-ABC123", ref := "tokA" }] := by
    simp [orderSave, genRef, hfind]
  have hmain := (C8_unique_identifiers [] "ABC123" (fun _ => "tokA") hW
    (by simp) (by simp)).2 _ hsave
  exact ⟨hsave, hmain.1, hmain.2⟩

end Esty
